import Mathlib

/-!
Verification of the Crystal intent-arbitration and skill-dispatch core.

Shallow embedding of:
  * `src/brain/intent_judge.py`  — `detect_intent` (scorer gate + arbitration policy);
  * `src/skill_manager.py`       — `SkillManager.run_skill` (dispatcher);
  * `src/brain/brain.py`         — `CrystalBrain._background_monitor` (monitor loop);
  * `src/brain/arbitrator.py`    — `SkillArbitrator.select_skill` (fallback arbitrator).

Machine floats of the source are modelled as exact rationals; Python
exceptions are modelled with `Except String`; external collaborators
(the sentence-embedding model, the flashtext keyword extractor, the
word-boundary regex matcher, the LLM classifier, interactive input) are
parameters of the embedded functions.
-/

namespace Crystal

/-- Python `str.lower()` (ASCII case folding, as used by the source's
all-ASCII keywords and intents). -/
def py_lower (s : String) : String := ⟨s.data.map Char.toLower⟩

/-- Python `str.strip()` with no argument: remove whitespace from both
ends. -/
def py_strip (s : String) : String :=
  ⟨((s.data.dropWhile Char.isWhitespace).reverse.dropWhile Char.isWhitespace).reverse⟩

/-- Python `text.split()[0]` for non-empty stripped `text`: the leading
run of non-whitespace characters. -/
def first_word_of (s : String) : String :=
  ⟨s.data.takeWhile (fun c => !c.isWhitespace)⟩

/-- The four decision actions of the arbitration policy
(`"execute" | "confirm" | "clarify" | "none"` in the source dicts). -/
inductive Action where
  | execute
  | confirm
  | clarify
  | none_
deriving DecidableEq, Repr

/-- The dict returned by `detect_intent`.  A missing key is modelled by
`Option.none` (for `intent`, `confidence`) or `[]` (for `candidates`). -/
structure IntentResult where
  action : Action
  intent : Option String := none
  confidence : Option ℚ := none
  candidates : List String := []
deriving DecidableEq, Repr

/-- `HIGH_CONFIDENCE` of `intent_judge.py`. -/
def HIGH_CONFIDENCE : ℚ := 70 / 100

/-- `MEDIUM_CONFIDENCE` of `intent_judge.py`. -/
def MEDIUM_CONFIDENCE : ℚ := 50 / 100

/-- `AMBIGUITY_MARGIN` of `intent_judge.py`. -/
def AMBIGUITY_MARGIN : ℚ := 7 / 100

/-- Python `round(q, 3)`: round to a multiple of 1/1000, ties to even. -/
def round3 (q : ℚ) : ℚ :=
  let x : ℚ := q * 1000
  let f : ℤ := ⌊x⌋
  let r : ℚ := x - (f : ℚ)
  let n : ℤ :=
    if r < 1 / 2 then f
    else if 1 / 2 < r then f + 1
    else if f % 2 = 0 then f else f + 1
  (n : ℚ) / 1000

/-- The `close_matches` list comprehension of `detect_intent`
(`intent_judge.py` lines 233-236): intents among the remaining entries
whose score is within `AMBIGUITY_MARGIN` of the top score. -/
def close_matches (top_score : ℚ) (rest : List (String × ℚ)) : List String :=
  (rest.filter fun p => |top_score - p.2| ≤ AMBIGUITY_MARGIN).map Prod.fst

/-- Arbitration policy: steps 3-5 of `detect_intent`
(`intent_judge.py` lines 227-268), applied to the ranked score list.
The `[]` case corresponds to the empty-ranking rule of the policy
(`detect_intent` itself always passes a non-empty list, one entry per
registered intent). -/
def decide : List (String × ℚ) → IntentResult
  | [] => { action := .none_ }
  | (top_intent, top_score) :: rest =>
    if close_matches top_score rest ≠ [] ∧ MEDIUM_CONFIDENCE ≤ top_score then
      { action := .clarify
        intent := some top_intent
        confidence := some (round3 top_score)
        candidates := top_intent :: close_matches top_score rest }
    else if HIGH_CONFIDENCE ≤ top_score then
      { action := .execute
        intent := some top_intent
        confidence := some (round3 top_score) }
    else if MEDIUM_CONFIDENCE ≤ top_score then
      { action := .confirm
        intent := some top_intent
        confidence := some (round3 top_score) }
    else { action := .none_ }

/-- `IMPERATIVE_VERBS` of `intent_judge.py`. -/
def IMPERATIVE_VERBS : List String :=
  ["open", "launch", "start", "play",
   "search", "watch", "stream",
   "type", "move", "delete",
   "rename", "copy"]

/-- `detect_intent` of `intent_judge.py` (lines 198-268).
`kwExtract` models `keyword_processor.extract_keywords` (flashtext) and
`scoreFn` models the embedding-similarity ranking of step 2 (encode,
`cos_sim(..).max()` per intent, sort descending), both external to the
policy.  This variant models the run in which the embedding model
succeeds. -/
def detect_intent (kwExtract : String → List String)
    (scoreFn : String → List (String × ℚ)) (text : String) : IntentResult :=
  let t := py_strip (py_lower text)
  if t = "" then { action := .none_ }
  else
    let keywords := kwExtract t
    let first_word := first_word_of t
    if keywords = [] ∧ first_word ∉ IMPERATIVE_VERBS then { action := .none_ }
    else decide (scoreFn t)

/-- `detect_intent` with the embedding call's failure modelled:
`scoreFn` may raise (`Except.error`).  The source wraps the call
`model.encode(text, ...)` (line 218) in no try/except, so a raised
exception leaves `detect_intent` uncaught; the embedding therefore uses
the error monad with no handler. -/
def detect_intentE (kwExtract : String → List String)
    (scoreFn : String → Except String (List (String × ℚ))) (text : String) :
    Except String IntentResult :=
  let t := py_strip (py_lower text)
  if t = "" then .ok { action := .none_ }
  else
    let keywords := kwExtract t
    let first_word := first_word_of t
    if keywords = [] ∧ first_word ∉ IMPERATIVE_VERBS then .ok { action := .none_ }
    else
      match scoreFn t with
      | .error e => .error e
      | .ok scores => .ok (decide scores)

/-! ## Arbitration policy: claims C1, C2, C8, C6 -/

/-- Claim C1: for every ranking whose top score is at least
`MEDIUM_CONFIDENCE` (0.50) and in which at least one other entry is
within `AMBIGUITY_MARGIN` (0.07) of the top score, the decision is
clarify with the top intent and candidates `[top intent] ++ close
matches` — even when the top score is at least 0.70, since the
ambiguity check is performed before the execute tier. -/
theorem decide_clarify_overrides_execute (top_intent : String) (top_score : ℚ)
    (rest : List (String × ℚ))
    (hmed : MEDIUM_CONFIDENCE ≤ top_score)
    (hclose : ∃ p ∈ rest, |top_score - p.2| ≤ AMBIGUITY_MARGIN) :
    Crystal.decide ((top_intent, top_score) :: rest) =
      { action := .clarify
        intent := some top_intent
        confidence := some (round3 top_score)
        candidates := top_intent :: close_matches top_score rest } := by
  have hcm : close_matches top_score rest ≠ [] := by
    obtain ⟨p, hp, hle⟩ := hclose
    have hmem : p.1 ∈ close_matches top_score rest := by
      simp only [close_matches, List.mem_map]
      exact ⟨p, List.mem_filter.2 ⟨hp, by simpa using hle⟩, rfl⟩
    intro h
    rw [h] at hmem
    simp at hmem
  simp only [Crystal.decide]
  rw [if_pos ⟨hcm, hmed⟩]

/-- Witness for C1: scores `{a: 0.72, b: 0.68}` clarify despite the top
being above the execute threshold. -/
theorem decide_clarify_overrides_execute_witness :
    MEDIUM_CONFIDENCE ≤ ((72 : ℚ)/100) ∧
    Crystal.decide [("a", 72/100), ("b", 68/100)] =
      { action := .clarify
        intent := some "a"
        confidence := some (round3 (72/100))
        candidates := "a" :: close_matches (72/100) [("b", 68/100)] } :=
  ⟨by norm_num [MEDIUM_CONFIDENCE],
   decide_clarify_overrides_execute "a" (72/100) [("b", 68/100)]
     (by norm_num [MEDIUM_CONFIDENCE])
     ⟨("b", 68/100), by simp, by norm_num [AMBIGUITY_MARGIN, abs_le]⟩⟩

/-- Claim C2 (amended): for every ranking with no other entry within
`AMBIGUITY_MARGIN` of the top score, the decision is execute (top score
at least 0.70), confirm (top score at least 0.50), or none, with the
top intent; the reported confidence is the top score rounded to three
decimal places (`round(top_score, 3)` in the source), not the exact
score. -/
theorem decide_tiers_no_close (top_intent : String) (top_score : ℚ)
    (rest : List (String × ℚ))
    (hno : ∀ p ∈ rest, ¬ |top_score - p.2| ≤ AMBIGUITY_MARGIN) :
    (HIGH_CONFIDENCE ≤ top_score →
      Crystal.decide ((top_intent, top_score) :: rest) =
        { action := .execute, intent := some top_intent
          confidence := some (round3 top_score) })
    ∧ (¬ HIGH_CONFIDENCE ≤ top_score → MEDIUM_CONFIDENCE ≤ top_score →
      Crystal.decide ((top_intent, top_score) :: rest) =
        { action := .confirm, intent := some top_intent
          confidence := some (round3 top_score) })
    ∧ (¬ MEDIUM_CONFIDENCE ≤ top_score →
      Crystal.decide ((top_intent, top_score) :: rest) = { action := .none_ }) := by
  have hcm : close_matches top_score rest = [] := by
    simp only [close_matches, List.map_eq_nil_iff, List.filter_eq_nil_iff]
    intro p hp
    simpa using hno p hp
  have hnotand : ¬(close_matches top_score rest ≠ [] ∧ MEDIUM_CONFIDENCE ≤ top_score) :=
    fun h => h.1 hcm
  refine ⟨?_, ?_, ?_⟩
  · intro hH
    simp only [Crystal.decide]
    rw [if_neg hnotand, if_pos hH]
  · intro hH hM
    simp only [Crystal.decide]
    rw [if_neg hnotand, if_neg hH, if_pos hM]
  · intro hM
    have hH : ¬ HIGH_CONFIDENCE ≤ top_score := by
      intro h
      exact hM (le_trans (by norm_num [MEDIUM_CONFIDENCE, HIGH_CONFIDENCE]) h)
    simp only [Crystal.decide]
    rw [if_neg hnotand, if_neg hH, if_neg hM]

/-- Witness for C2 (amended): scores `{a: 0.85, b: 0.40}` give
execute/a. -/
theorem decide_tiers_no_close_witness :
    HIGH_CONFIDENCE ≤ ((85 : ℚ)/100) ∧
    Crystal.decide [("a", 85/100), ("b", 40/100)] =
      { action := .execute, intent := some "a"
        confidence := some (round3 (85/100)) } :=
  ⟨by norm_num [HIGH_CONFIDENCE],
   (decide_tiers_no_close "a" (85/100) [("b", 40/100)]
     (by
       intro p hp
       simp at hp
       rw [hp]
       norm_num [AMBIGUITY_MARGIN, abs_le])).1
     (by norm_num [HIGH_CONFIDENCE])⟩

/-- Counterexample for C2 as stated: at the single-entry ranking
`[("a", 0.7502)]` the decision is execute, but the reported confidence
is the rounded value 0.750, not the top score itself, because the
source rounds with `round(top_score, 3)`. -/
theorem decide_execute_confidence_counterexample :
    (Crystal.decide [("a", 7502/10000)]).action = .execute ∧
    (Crystal.decide [("a", 7502/10000)]).confidence ≠ some ((7502 : ℚ)/10000) := by
  have hr : round3 ((7502 : ℚ)/10000) = 750/1000 := by
    simp only [round3]
    norm_num
  have h : Crystal.decide [("a", (7502 : ℚ)/10000)] =
      { action := .execute, intent := some "a", confidence := some ((750 : ℚ)/1000) } := by
    simp only [Crystal.decide]
    rw [if_neg (by simp [close_matches]), if_pos (by norm_num [HIGH_CONFIDENCE]), hr]
  rw [h]
  refine ⟨rfl, ?_⟩
  simp only [ne_eq, Option.some.injEq]
  norm_num

/-- Invariant of the arbitration policy on every ranked list, shared by
the proof of claim C8. -/
theorem decide_invariant (scores : List (String × ℚ)) :
    ((Crystal.decide scores).candidates ≠ [] → (Crystal.decide scores).action = .clarify)
    ∧ ((Crystal.decide scores).action = .execute ∨ (Crystal.decide scores).action = .confirm →
      ((Crystal.decide scores).confidence).isSome = true) := by
  match scores with
  | [] => simp [Crystal.decide]
  | (ti, ts) :: rest =>
    simp only [Crystal.decide]
    split
    · simp
    · split
      · simp
      · split
        · simp
        · simp

/-- Claim C8: for every input (any keyword extraction, any scoring
outcome, any text), the `IntentResult` produced by `detect_intent`
satisfies: `candidates` is non-empty only when the action is clarify,
and `confidence` is populated whenever the action is execute or
confirm. -/
theorem detect_intent_result_invariant (kwExtract : String → List String)
    (scoreFn : String → List (String × ℚ)) (text : String) :
    ((detect_intent kwExtract scoreFn text).candidates ≠ [] →
      (detect_intent kwExtract scoreFn text).action = .clarify)
    ∧ ((detect_intent kwExtract scoreFn text).action = .execute ∨
        (detect_intent kwExtract scoreFn text).action = .confirm →
      ((detect_intent kwExtract scoreFn text).confidence).isSome = true) := by
  simp only [detect_intent]
  split
  · simp
  · split
    · simp
    · exact decide_invariant _

/-- Witness for C8: a concrete ambiguous input produces non-empty
candidates, and the theorem forces the action to be clarify there. -/
theorem detect_intent_result_invariant_witness :
    (detect_intent (fun _ => ["open"]) (fun _ => [("a", 6/10), ("b", 6/10)]) "open app").candidates ≠ [] ∧
    (detect_intent (fun _ => ["open"]) (fun _ => [("a", 6/10), ("b", 6/10)]) "open app").action = .clarify := by
  have hd : detect_intent (fun _ => ["open"]) (fun _ => [("a", (6 : ℚ)/10), ("b", 6/10)]) "open app" =
      Crystal.decide [("a", (6 : ℚ)/10), ("b", 6/10)] := by
    simp only [detect_intent]
    rw [if_neg (by decide), if_neg (by simp)]
  have hdec : Crystal.decide [("a", (6 : ℚ)/10), ("b", (6 : ℚ)/10)] =
      { action := .clarify, intent := some "a", confidence := some (round3 (6/10))
        candidates := "a" :: close_matches (6/10) [("b", 6/10)] } := by
    simp only [Crystal.decide]
    rw [if_pos]
    refine ⟨?_, by norm_num [MEDIUM_CONFIDENCE]⟩
    have : ("b" : String) ∈ close_matches ((6 : ℚ)/10) [("b", 6/10)] := by
      simp only [close_matches, List.mem_map]
      refine ⟨("b", (6 : ℚ)/10), List.mem_filter.2 ⟨by simp, ?_⟩, rfl⟩
      norm_num [AMBIGUITY_MARGIN, abs_le]
    intro hnil
    rw [hnil] at this
    simp at this
  have hcand : (detect_intent (fun _ => ["open"]) (fun _ => [("a", (6 : ℚ)/10), ("b", 6/10)]) "open app").candidates ≠ [] := by
    rw [hd, hdec]
    simp
  exact ⟨hcand, (detect_intent_result_invariant _ _ _).1 hcand⟩

/-- Claim C6 (amended): when the input passes the keyword gate and the
embedding function fails, the failure propagates out of
`detect_intent` to the caller — the source wraps the embedding call in
no handler, so no empty ranking and no `{action: none}` result is
produced. -/
theorem detect_intentE_failure_propagates (kwExtract : String → List String)
    (scoreFn : String → Except String (List (String × ℚ))) (text e : String)
    (ht : ¬ py_strip (py_lower text) = "")
    (hgate : ¬(kwExtract (py_strip (py_lower text)) = [] ∧
        first_word_of (py_strip (py_lower text)) ∉ IMPERATIVE_VERBS))
    (herr : scoreFn (py_strip (py_lower text)) = .error e) :
    detect_intentE kwExtract scoreFn text = .error e := by
  simp only [detect_intentE]
  rw [if_neg ht, if_neg hgate, herr]

/-- Witness for C6 (amended): with a failing embedding function, the
input "open the app" makes `detect_intent` raise. -/
theorem detect_intentE_failure_propagates_witness :
    ¬ py_strip (py_lower "open the app") = "" ∧
    detect_intentE (fun _ => ["open"]) (fun _ => .error "embedding unavailable") "open the app"
      = .error "embedding unavailable" :=
  ⟨by decide,
   detect_intentE_failure_propagates (fun _ => ["open"])
     (fun _ => .error "embedding unavailable") "open the app" "embedding unavailable"
     (by decide) (by simp) rfl⟩

/-- Counterexample for C6 as stated: on the gated input "open the app"
with an unavailable embedding function, `detect_intent` raises the
scoring error instead of returning an empty ranking with downstream
action none. -/
theorem detect_intentE_failure_counterexample :
    detect_intentE (fun _ => ["open"]) (fun _ => .error "embedding unavailable") "open the app"
      = .error "embedding unavailable" ∧
    detect_intentE (fun _ => ["open"]) (fun _ => .error "embedding unavailable") "open the app"
      ≠ .ok { action := .none_ } := by
  have h : detect_intentE (fun _ => ["open"]) (fun _ => .error "embedding unavailable") "open the app"
      = .error "embedding unavailable" := by
    simp only [detect_intentE]
    rw [if_neg (by decide), if_neg (by simp)]
  refine ⟨h, ?_⟩
  rw [h]
  exact fun hh => Except.noConfusion hh

/-! ## Dispatcher (`SkillManager.run_skill`): claims C3, C5 -/

/-- One entity dict produced by `CrystalBrain._extract_entities`:
a `{type, value}` pair. -/
abbrev Entity := String × String

/-- The parameters dict passed to a skill's `run`; a key the caller
does not set is `Option.none` (Python `dict.get` then yields `None`,
matching an explicit `None` value). -/
structure RunInput where
  user_input : String
  intent : Option String
  confidence : Option ℚ
  entities : Option (List Entity)

/-- The runtime behaviour of one loaded skill instance:
`check_requirements() -> (bool, msg)` (modelled as a value, the source
calls it with no arguments) and `run(parameters)`, which may raise
(`Except.error`) or return `None` (`Except.ok Option.none`). -/
structure SkillInst where
  check_requirements : Bool × String
  run : RunInput → Except String (Option String)

/-- One entry of `SkillManager.skills` as built by `load_skills`
(`skill_manager.py` lines 60-65). -/
structure SkillRec where
  inst : SkillInst
  name : String
  keywords : List String
  supported_intents : List String

/-- Python f-string rendering of an optional string (`None` prints as
"None"). -/
def py_str_opt : Option String → String
  | some s => s
  | Option.none => "None"

/-- The parameters dict built in the intent execution path
(`skill_manager.py` lines 134-139). -/
def intent_run_input (user_input : String) (intent : Option String) (confidence : ℚ)
    (entities : Option (List Entity)) : RunInput :=
  { user_input := user_input, intent := intent
    confidence := some confidence, entities := entities }

/-- The parameters dict built in the exact-name and keyword-fallback
paths (`skill_manager.py` lines 154-158 and 169-173): no confidence
key, intent `None`. -/
def bare_run_input (user_input : String) (entities : Option (List Entity)) : RunInput :=
  { user_input := user_input, intent := Option.none
    confidence := Option.none, entities := entities }

/-- The candidate loop of the execute path (`skill_manager.py` lines
129-144): skip skills whose `check_requirements` fails, return the
first non-`None` result, continue on a `None` result.  The source
wraps `instance.run` in no try/except, so a raised exception
propagates (`Except.error` short-circuits). -/
def exec_loop (user_input : String) (intent : Option String) (confidence : ℚ)
    (entities : Option (List Entity)) : List SkillInst → Except String (Option String)
  | [] => .ok (some ("⚠️ No skill could execute intent " ++ py_str_opt intent ++ "."))
  | inst :: rest =>
    if inst.check_requirements.1 = true then
      match inst.run (intent_run_input user_input intent confidence entities) with
      | .error e => .error e
      | .ok (some r) => .ok (some r)
      | .ok Option.none => exec_loop user_input intent confidence entities rest
    else exec_loop user_input intent confidence entities rest

/-- The exact-skill-name loop (`skill_manager.py` lines 149-158):
`Option.none` means the loop fell through to the keyword fallback. -/
def exact_name_loop (user_input : String) (entities : Option (List Entity)) :
    List SkillRec → Option (Except String (Option String))
  | [] => Option.none
  | s :: rest =>
    if py_lower user_input = py_lower s.name then
      if s.inst.check_requirements.1 = true then
        some (s.inst.run (bare_run_input user_input entities))
      else exact_name_loop user_input entities rest
    else exact_name_loop user_input entities rest

/-- The inner keyword loop of the keyword fallback (`skill_manager.py`
lines 164-173) over one skill's keyword list.  `kwMatch kw text`
models `re.search(rf"\b...\b", text)` with the escaped lowered
keyword. -/
def keyword_scan (kwMatch : String → String → Bool) (user_input : String)
    (entities : Option (List Entity)) (s : SkillRec) :
    List String → Option (Except String (Option String))
  | [] => Option.none
  | kw :: rest =>
    if kwMatch (py_lower kw) (py_lower user_input) = true then
      if s.inst.check_requirements.1 = true then
        some (s.inst.run (bare_run_input user_input entities))
      else keyword_scan kwMatch user_input entities s rest
    else keyword_scan kwMatch user_input entities s rest

/-- The outer keyword-fallback loop (`skill_manager.py` lines
163-175). -/
def keyword_loop (kwMatch : String → String → Bool) (user_input : String)
    (entities : Option (List Entity)) : List SkillRec → Except String (Option String)
  | [] => .ok Option.none
  | s :: rest =>
    match keyword_scan kwMatch user_input entities s s.keywords with
    | some res => res
    | Option.none => keyword_loop kwMatch user_input entities rest

/-- `SkillManager.run_skill` (`skill_manager.py` lines 84-175).  In the
source, any action other than the four known ones also returns `None`;
with the four-valued `Action` that branch is exactly the `.none_`
case. -/
def run_skill (skills : List SkillRec) (kwMatch : String → String → Bool)
    (user_input : String) (intent_result : Option IntentResult)
    (entities : Option (List Entity)) : Except String (Option String) :=
  match intent_result with
  | some ir =>
    match ir.action with
    | .none_ => .ok Option.none
    | .clarify =>
      .ok (some ("🤔 I found multiple possible actions: " ++
        String.intercalate ", " ir.candidates ++ ". Which one should I run?"))
    | .confirm =>
      .ok (some ("❓ Do you want me to run " ++ py_str_opt ir.intent ++ "? (yes / no)"))
    | .execute =>
      let matched := (skills.filter fun s =>
        match ir.intent with
        | some i => s.supported_intents.contains i
        | Option.none => false).map (fun s => s.inst)
      if matched.isEmpty = true then
        .ok (some ("⚠️ Intent " ++ py_str_opt ir.intent ++ " has no mapped skills."))
      else
        exec_loop user_input ir.intent (ir.confidence.getD 0) entities matched
  | Option.none =>
    match exact_name_loop user_input entities skills with
    | some res => res
    | Option.none => keyword_loop kwMatch user_input entities skills

/-- A candidate that is either not ready or returns `None` is skipped
by the execute-path loop; shared by the proofs of C3 and C5. -/
theorem exec_loop_skip (user_input : String) (intent : Option String) (confidence : ℚ)
    (entities : Option (List Entity)) (pre rest : List SkillInst)
    (hpre : ∀ t ∈ pre, t.check_requirements.1 = false ∨
      t.run (intent_run_input user_input intent confidence entities) = .ok Option.none) :
    exec_loop user_input intent confidence entities (pre ++ rest) =
      exec_loop user_input intent confidence entities rest := by
  induction pre with
  | nil => simp
  | cons a pre ih =>
    have ha := hpre a (by simp)
    have htail : ∀ t ∈ pre, t.check_requirements.1 = false ∨
        t.run (intent_run_input user_input intent confidence entities) = .ok Option.none :=
      fun t ht => hpre t (by simp [ht])
    rw [List.cons_append]
    rcases ha with hf | hnone
    · rw [exec_loop, if_neg (by simp [hf])]
      exact ih htail
    · by_cases hc : a.check_requirements.1 = true
      · rw [exec_loop, if_pos hc, hnone]
        exact ih htail
      · rw [exec_loop, if_neg hc]
        exact ih htail

/-- Claim C5 (amended): on an execute dispatch the Dispatcher tries
the skills supporting the intent in registration order, skipping
not-ready skills; the first ready skill returning a non-null result
yields that result immediately and later candidates (`post`, arbitrary
here) are never consulted; a ready skill returning a null (`None`)
result causes the loop to continue.  (An empty-string result is
non-null and is returned immediately, unlike what the claim states.) -/
theorem run_skill_execute_first_ready_result (skills pre post : List SkillRec) (s : SkillRec)
    (kwMatch : String → String → Bool) (user_input : String)
    (entities : Option (List Entity)) (i r : String) (conf : ℚ)
    (hdecomp : skills.filter (fun t => t.supported_intents.contains i) = pre ++ s :: post)
    (hpre : ∀ t ∈ pre, t.inst.check_requirements.1 = false ∨
      t.inst.run (intent_run_input user_input (some i) conf entities) = .ok Option.none)
    (hready : s.inst.check_requirements.1 = true)
    (hrun : s.inst.run (intent_run_input user_input (some i) conf entities) = .ok (some r)) :
    run_skill skills kwMatch user_input
      (some { action := .execute, intent := some i, confidence := some conf }) entities
      = .ok (some r) := by
  simp only [run_skill, hdecomp]
  rw [if_neg (by simp)]
  simp only [Option.getD_some, List.map_append, List.map_cons]
  rw [exec_loop_skip _ _ _ _ _ _ ?hp]
  case hp =>
    intro t ht
    simp only [List.mem_map] at ht
    obtain ⟨u, hu, hte⟩ := ht
    rcases hpre u hu with h1 | h2
    · exact Or.inl (hte ▸ h1)
    · exact Or.inr (hte ▸ h2)
  rw [exec_loop, if_pos hready, hrun]

/-- Claim C3 (amended): on an execute dispatch, when the first ready
candidate's `run` raises, the exception is NOT caught at the
Dispatcher boundary: `run_skill` propagates it to the caller and the
remaining candidates (`post`, arbitrary here) are never tried. -/
theorem run_skill_execute_error_propagates (skills pre post : List SkillRec) (s : SkillRec)
    (kwMatch : String → String → Bool) (user_input : String)
    (entities : Option (List Entity)) (i e : String) (conf : ℚ)
    (hdecomp : skills.filter (fun t => t.supported_intents.contains i) = pre ++ s :: post)
    (hpre : ∀ t ∈ pre, t.inst.check_requirements.1 = false ∨
      t.inst.run (intent_run_input user_input (some i) conf entities) = .ok Option.none)
    (hready : s.inst.check_requirements.1 = true)
    (hrun : s.inst.run (intent_run_input user_input (some i) conf entities) = .error e) :
    run_skill skills kwMatch user_input
      (some { action := .execute, intent := some i, confidence := some conf }) entities
      = .error e := by
  simp only [run_skill, hdecomp]
  rw [if_neg (by simp)]
  simp only [Option.getD_some, List.map_append, List.map_cons]
  rw [exec_loop_skip _ _ _ _ _ _ ?hp]
  case hp =>
    intro t ht
    simp only [List.mem_map] at ht
    obtain ⟨u, hu, hte⟩ := ht
    rcases hpre u hu with h1 | h2
    · exact Or.inl (hte ▸ h1)
    · exact Or.inr (hte ▸ h2)
  rw [exec_loop, if_pos hready, hrun]

/-- A ready stub skill for the `music_skill` intent returning a fixed
result. -/
def stub_ready (nm : String) (res : Except String (Option String)) : SkillRec :=
  { inst := { check_requirements := (true, ""), run := fun _ => res }
    name := nm, keywords := [], supported_intents := ["music_skill"] }

/-- A not-ready stub skill for the `music_skill` intent. -/
def stub_not_ready (nm : String) : SkillRec :=
  { inst := { check_requirements := (false, "missing credentials"), run := fun _ => .ok (some "never") }
    name := nm, keywords := [], supported_intents := ["music_skill"] }

/-- An execute decision for the `music_skill` intent. -/
def exec_ir : IntentResult :=
  { action := .execute, intent := some "music_skill", confidence := some 1 }

/-- Witness for C5 (amended): with a not-ready first skill, skill "b"
returning "B" and a third ready skill, the dispatch returns "B". -/
theorem run_skill_execute_first_ready_result_witness :
    (stub_not_ready "n").inst.check_requirements.1 = false ∧
    run_skill [stub_not_ready "n", stub_ready "b" (.ok (some "B")), stub_ready "c" (.ok (some "C"))]
      (fun _ _ => false) "play music" (some exec_ir) Option.none = .ok (some "B") :=
  ⟨rfl,
   run_skill_execute_first_ready_result
     [stub_not_ready "n", stub_ready "b" (.ok (some "B")), stub_ready "c" (.ok (some "C"))]
     [stub_not_ready "n"] [stub_ready "c" (.ok (some "C"))]
     (stub_ready "b" (.ok (some "B"))) (fun _ _ => false) "play music" Option.none
     "music_skill" "B" 1 rfl
     (by
       intro t ht
       simp only [List.mem_singleton] at ht
       subst ht
       exact Or.inl rfl)
     rfl rfl⟩

/-- Witness for C3 (amended): the first ready skill raises "boom" and
the dispatch surfaces exactly that exception. -/
theorem run_skill_execute_error_propagates_witness :
    (stub_ready "a" (.error "boom")).inst.check_requirements.1 = true ∧
    run_skill [stub_ready "a" (.error "boom"), stub_ready "b" (.ok (some "B"))]
      (fun _ _ => false) "play music" (some exec_ir) Option.none = .error "boom" :=
  ⟨rfl,
   run_skill_execute_error_propagates
     [stub_ready "a" (.error "boom"), stub_ready "b" (.ok (some "B"))]
     [] [stub_ready "b" (.ok (some "B"))]
     (stub_ready "a" (.error "boom")) (fun _ _ => false) "play music" Option.none
     "music_skill" "boom" 1 rfl
     (by intro t ht; simp at ht)
     rfl rfl⟩

/-- Counterexample for C3 as stated: two ready skills for the intent,
the first raises — the caller receives the exception, not the second
skill's result. -/
theorem run_skill_exception_counterexample :
    run_skill [stub_ready "a" (.error "boom"), stub_ready "b" (.ok (some "B"))]
      (fun _ _ => false) "play music" (some exec_ir) Option.none = .error "boom" ∧
    run_skill [stub_ready "a" (.error "boom"), stub_ready "b" (.ok (some "B"))]
      (fun _ _ => false) "play music" (some exec_ir) Option.none ≠ .ok (some "B") := by
  have h : run_skill [stub_ready "a" (.error "boom"), stub_ready "b" (.ok (some "B"))]
      (fun _ _ => false) "play music" (some exec_ir) Option.none = .error "boom" := rfl
  refine ⟨h, ?_⟩
  rw [h]
  simp

/-- Counterexample for C5 as stated: the first ready skill returns the
empty string (non-null), and the dispatch returns that empty string
immediately instead of continuing to the second skill. -/
theorem run_skill_empty_result_counterexample :
    run_skill [stub_ready "a" (.ok (some "")), stub_ready "b" (.ok (some "B"))]
      (fun _ _ => false) "play music" (some exec_ir) Option.none = .ok (some "") ∧
    run_skill [stub_ready "a" (.ok (some "")), stub_ready "b" (.ok (some "B"))]
      (fun _ _ => false) "play music" (some exec_ir) Option.none ≠ .ok (some "B") := by
  have h : run_skill [stub_ready "a" (.ok (some "")), stub_ready "b" (.ok (some "B"))]
      (fun _ _ => false) "play music" (some exec_ir) Option.none = .ok (some "") := rfl
  refine ⟨h, ?_⟩
  rw [h]
  simp

/-! ## Background monitor (`CrystalBrain._background_monitor`): claims C4, C9 -/

/-- The optional periodic hooks the monitor probes on each skill
instance (`brain.py` lines 80-88): `Option.none` models an absent or
non-callable attribute; a present hook either returns normally or
raises. -/
structure MonSkill where
  check_queue_loop : Option (Except String Unit) := Option.none
  price_monitor : Option (Except String Unit) := Option.none
  weather_monitor : Option (Except String Unit) := Option.none
  reminder_monitor : Option (Except String Unit) := Option.none

/-- The hooks present on one skill instance, in the probe order of the
source's hook-name tuple. -/
def skill_hooks (s : MonSkill) : List (String × Except String Unit) :=
  ([("check_queue_loop", s.check_queue_loop), ("price_monitor", s.price_monitor),
    ("weather_monitor", s.weather_monitor), ("reminder_monitor", s.reminder_monitor)]).filterMap
    (fun p => p.2.map (fun b => (p.1, b)))

/-- The hook sequence of one full cycle over `skill_manager.skills`
(`brain.py` lines 75-88); an entry that is `Option.none` models
`skill_info.get("instance")` being falsy and is skipped. -/
def all_hooks (skills : List (Option MonSkill)) : List (String × Except String Unit) :=
  (skills.map (fun s => match s with
    | some sk => skill_hooks sk
    | Option.none => [])).flatten

/-- Invoke the cycle's hooks in order: returns the names of the hooks
actually invoked and the first raised error, if any.  A raise aborts
the remaining hooks of the cycle (the `fn()` calls are not wrapped
individually; the exception flies to the cycle-level `except`). -/
def run_hooks : List (String × Except String Unit) → List String × Option String
  | [] => ([], Option.none)
  | (n, Except.ok _) :: rest =>
    let r := run_hooks rest
    (n :: r.1, r.2)
  | (n, Except.error e) :: _ => ([n], some e)

/-- One iteration body of `CrystalBrain._background_monitor`
(`brain.py` lines 69-94): returns the hooks invoked this cycle and the
seconds slept before the next iteration (10 on overload skip, 10 after
a caught exception, 5 after a normal cycle). -/
def monitor_cycle (cpu_percent : ℚ) (skills : List (Option MonSkill)) :
    List String × ℚ :=
  if 90 < cpu_percent then ([], 10)
  else
    let r := run_hooks (all_hooks skills)
    match r.2 with
    | some _ => (r.1, 10)
    | Option.none => (r.1, 5)

/-- Whether the monitor loop keeps running after a step. -/
inductive LoopStatus where
  | running
  | stopped
deriving DecidableEq, Repr

/-- One step of the monitor loop as a transition of the
`while self.monitor_active` state machine: when the flag is cleared
the loop terminates; otherwise the cycle body runs and the loop
continues. -/
def monitor_step (monitor_active : Bool) (cpu_percent : ℚ)
    (skills : List (Option MonSkill)) : LoopStatus × List String × ℚ :=
  if monitor_active = true then
    ((LoopStatus.running, monitor_cycle cpu_percent skills) : LoopStatus × List String × ℚ)
  else (LoopStatus.stopped, [], 0)

/-- A raising hook ends the cycle's hook sequence: the hooks before it
ran, it ran, and nothing after it ran; shared by the proof of C4. -/
theorem run_hooks_error_stops (pre : List (String × Except String Unit)) (n e : String)
    (post : List (String × Except String Unit))
    (hpre : ∀ p ∈ pre, p.2 = Except.ok ()) :
    run_hooks (pre ++ (n, Except.error e) :: post) = (pre.map Prod.fst ++ [n], some e) := by
  induction pre with
  | nil => simp [run_hooks]
  | cons a pre ih =>
    rcases a with ⟨an, ab⟩
    have ha : ab = Except.ok () := hpre (an, ab) (by simp)
    have htail : ∀ p ∈ pre, p.2 = Except.ok () := fun p hp => hpre p (by simp [hp])
    subst ha
    rw [List.cons_append, run_hooks]
    rw [ih htail]
    simp

/-- Claim C4 (amended): an exception raised by one periodic hook is
caught — at the cycle level, not per hook: the hooks before the
raiser and the raiser itself are the only ones invoked that cycle
(the hooks after it, `post`, are skipped), the error is logged and the
loop backs off 10 seconds instead of 5 before the next cycle. -/
theorem monitor_cycle_hook_error (cpu_percent : ℚ) (skills : List (Option MonSkill))
    (pre : List (String × Except String Unit)) (n e : String)
    (post : List (String × Except String Unit))
    (hcpu : ¬ 90 < cpu_percent)
    (hhooks : all_hooks skills = pre ++ (n, Except.error e) :: post)
    (hpre : ∀ p ∈ pre, p.2 = Except.ok ()) :
    monitor_cycle cpu_percent skills = (pre.map Prod.fst ++ [n], 10) := by
  simp only [monitor_cycle]
  rw [if_neg hcpu, hhooks, run_hooks_error_stops pre n e post hpre]

/-- A skill with three hooks whose second one raises. -/
def mon_demo_skill : MonSkill :=
  { check_queue_loop := some (Except.ok ())
    price_monitor := some (Except.error "boom")
    weather_monitor := some (Except.ok ()) }

/-- Witness for C4 (amended): with hooks ok/raise/ok, exactly the first
two are invoked and the cycle waits 10 seconds. -/
theorem monitor_cycle_hook_error_witness :
    ¬ (90 : ℚ) < 0 ∧
    monitor_cycle 0 [some mon_demo_skill] =
      (List.map Prod.fst ([("check_queue_loop", Except.ok ())] : List (String × Except String Unit)) ++ ["price_monitor"], 10) :=
  ⟨by norm_num,
   monitor_cycle_hook_error 0 [some mon_demo_skill]
     [("check_queue_loop", Except.ok ())] "price_monitor" "boom"
     [("weather_monitor", Except.ok ())] (by norm_num) rfl
     (by
       intro p hp
       simp only [List.mem_singleton] at hp
       subst hp
       rfl)⟩

/-- Counterexample for C4 as stated: three registered hooks where the
second raises — the third does NOT execute within the same cycle,
because the try/except wraps the whole cycle rather than each hook
invocation. -/
theorem monitor_isolation_counterexample :
    (monitor_cycle 0 [some mon_demo_skill]).1 = ["check_queue_loop", "price_monitor"] ∧
    "weather_monitor" ∉ (monitor_cycle 0 [some mon_demo_skill]).1 := by
  have h : monitor_cycle 0 [some mon_demo_skill] = (["check_queue_loop", "price_monitor"], 10) := by
    simp only [monitor_cycle]
    rw [if_neg (by norm_num)]
    rfl
  rw [h]
  exact ⟨rfl, by decide⟩

/-- Claim C9: the monitor loop stops exactly when the active flag is
cleared; while active, an overloaded system (cpu above 90) skips the
cycle with the longer 10-second wait, a cycle whose hook sequence
raises is caught and followed by the longer 10-second back-off with
the loop still running, and a normal cycle sleeps 5 seconds — no
transient error terminates the loop. -/
theorem monitor_loop_only_stops_on_flag (a : Bool) (cpu_percent : ℚ)
    (skills : List (Option MonSkill)) :
    ((monitor_step a cpu_percent skills).1 = .stopped ↔ a = false)
    ∧ (a = true → 90 < cpu_percent → monitor_step a cpu_percent skills = (.running, [], 10))
    ∧ (a = true → ¬ 90 < cpu_percent → (run_hooks (all_hooks skills)).2.isSome = true →
        monitor_step a cpu_percent skills = (.running, (run_hooks (all_hooks skills)).1, 10))
    ∧ (a = true → ¬ 90 < cpu_percent → (run_hooks (all_hooks skills)).2 = Option.none →
        monitor_step a cpu_percent skills = (.running, (run_hooks (all_hooks skills)).1, 5)) := by
  refine ⟨?_, ?_, ?_, ?_⟩
  · cases a <;> simp [monitor_step]
  · intro ha hc
    subst ha
    simp [monitor_step, monitor_cycle, hc]
  · intro ha hc hs
    subst ha
    rcases hs2 : (run_hooks (all_hooks skills)).2 with _ | e
    · rw [hs2] at hs
      simp at hs
    · simp only [monitor_step, monitor_cycle, if_pos rfl]
      rw [if_neg hc, hs2]
      simp
  · intro ha hc hs
    subst ha
    simp only [monitor_step, monitor_cycle, if_pos rfl]
    rw [if_neg hc, hs]
    simp

/-- Witness for C9: an overloaded step (cpu 95) skips the cycle, keeps
running and waits 10 seconds. -/
theorem monitor_loop_only_stops_on_flag_witness :
    (90 : ℚ) < 95 ∧ monitor_step true 95 [] = (.running, [], 10) :=
  ⟨by norm_num, (monitor_loop_only_stops_on_flag true 95 []).2.1 rfl (by norm_num)⟩

/-! ## Fallback arbitrator (`SkillArbitrator.select_skill`): claims C7, C10 -/

/-- Python `str.strip(chars)`: remove the given characters from both
ends. -/
def py_strip_set (s : String) (cs : List Char) : String :=
  ⟨((s.data.dropWhile (cs.contains ·)).reverse.dropWhile (cs.contains ·)).reverse⟩

/-- Python substring containment `needle in hay` on strings. -/
def py_in (needle hay : String) : Bool :=
  (List.range (hay.data.length + 1)).any fun k => needle.data.isPrefixOf (hay.data.drop k)

/-- Digit run accepted by Python `int()`: ASCII digits with single
grouping underscores strictly between digits. -/
def py_digits_ok : List Char → Bool
  | [] => false
  | [c] => c.isDigit
  | c :: c2 :: rest =>
    c.isDigit && (if c2 = '_' then
        (match rest with
         | [] => false
         | _ :: _ => py_digits_ok rest)
      else py_digits_ok (c2 :: rest))

/-- Numeric value of an accepted digit run (grouping underscores
skipped). -/
def py_int_val (cs : List Char) : Nat :=
  cs.foldl (fun a c => if c = '_' then a else a * 10 + (c.toNat - 48)) 0

/-- Python `int(s)` on a decimal string: strips whitespace, accepts an
optional sign and a digit run; any other input raises `ValueError`,
modelled as `Option.none`. -/
def py_int? (s : String) : Option Int :=
  match (py_strip s).data with
  | '+' :: rest => if py_digits_ok rest then some (py_int_val rest) else Option.none
  | '-' :: rest => if py_digits_ok rest then some (-(py_int_val rest : Int)) else Option.none
  | cs => if py_digits_ok cs then some (py_int_val cs) else Option.none

/-- A candidate record as the arbitrator reads it: `name`,
`description` and `keywords` keys plus the skill instance's `run` and
`check_requirements`.  (`SkillManager.load_skills` itself stores no
`description` key; the arbitrator's dict accesses expect one, so the
model carries it.) -/
structure ArbSkill where
  name : String
  description : String
  keywords : List String
  run : RunInput → Except String (Option String)
  check_requirements : Bool × String

instance : Inhabited ArbSkill :=
  ⟨{ name := "", description := "", keywords := []
     run := fun _ => .ok Option.none, check_requirements := (true, "") }⟩

/-- `clean_input` of `select_skill` (`arbitrator.py` line 29):
`user_input.lower().strip("?!. ")`. -/
def arb_clean_input (user_input : String) : String :=
  py_strip_set (py_lower user_input) ['?', '!', '.', ' ']

/-- The keyword-overlap candidate list (`arbitrator.py` lines 28-32):
skills any of whose keywords occurs as a substring of the cleaned
input. -/
def arb_candidates (skills : List ArbSkill) (user_input : String) : List ArbSkill :=
  skills.filter (fun s => s.keywords.any (fun w => py_in (py_lower w) (arb_clean_input user_input)))

/-- The classifier decision string (`arbitrator.py` lines 60-64): the
stripped LLM answer, or `""` when the LLM call raised. -/
def arb_decision : Except String String → String
  | .ok d => py_strip d
  | .error _ => ""

/-- The parameters dict the arbitrator passes to `run`
(`arbitrator.py` lines 40 and 91): only `user_input` is set. -/
def arb_run_input (user_input : String) : RunInput :=
  { user_input := user_input, intent := Option.none
    confidence := Option.none, entities := Option.none }

/-- Step 7 of `select_skill` (`arbitrator.py` lines 88-94): run the
selected skill with the exception caught, a raise yielding `None`. -/
def run_wrapped (s : ArbSkill) (user_input : String) : Except String (Option String) :=
  match s.run (arb_run_input user_input) with
  | .ok out => .ok out
  | .error _ => .ok Option.none

/-- Steps 4-7 of `select_skill` (`arbitrator.py` lines 43-96) on the
multi-candidate list: match the classifier answer by case-insensitive
substring against candidate names; otherwise parse the interactive
numeric choice, selecting `candidates[choice - 1]` only when in range;
any failure ends with no skill run and a `None` result. -/
def select_multi (cands : List ArbSkill) (user_input : String)
    (llm_decision : Except String String) (user_choice : String) :
    Except String (Option String) × List String :=
  match cands.find? (fun s => py_in (py_lower s.name) (py_lower (arb_decision llm_decision))) with
  | some s => (run_wrapped s user_input, [s.name])
  | Option.none =>
    match py_int? (py_strip user_choice) with
    | Option.none => (.ok Option.none, [])
    | some nval =>
      if 0 ≤ nval - 1 ∧ nval - 1 < (cands.length : Int) then
        (run_wrapped (cands.getD (nval - 1).toNat default) user_input,
         [(cands.getD (nval - 1).toNat default).name])
      else (.ok Option.none, [])

/-- `SkillArbitrator.select_skill` (`arbitrator.py` lines 14-96).  The
LLM classifier and the interactive `input()` read are external and
enter as the `llm_decision` and `user_choice` parameters; the second
result component is the trace of skills whose `run` was invoked.  (The
source also computes `best_skill_name` from the optional skill bridge
at lines 22-25 and never uses it; that dead computation is omitted.) -/
def select_skill (skills : List ArbSkill) (user_input : String)
    (llm_decision : Except String String) (user_choice : String) :
    Except String (Option String) × List String :=
  match arb_candidates skills user_input with
  | [] => (.ok Option.none, [])
  | [c] =>
    (match c.run (arb_run_input user_input) with
     | .error e => (.error e, [c.name])
     | .ok out => (.ok out, [c.name]))
  | _ :: _ :: _ => select_multi (arb_candidates skills user_input) user_input llm_decision user_choice

/-- Claim C7: when `select_skill` escalates to interactive selection
(the classifier answer matched no candidate) and the typed choice is
non-numeric or out of range, the call aborts: no skill is run (empty
trace) and the result is the explicit `None` "could not resolve"
value — and there is no retry, the single choice decides. -/
theorem select_skill_invalid_choice_aborts (skills : List ArbSkill)
    (user_input : String) (llm_decision : Except String String) (user_choice : String)
    (hmulti : 2 ≤ (arb_candidates skills user_input).length)
    (hnomatch : (arb_candidates skills user_input).find?
      (fun s => py_in (py_lower s.name) (py_lower (arb_decision llm_decision))) = Option.none)
    (hbad : py_int? (py_strip user_choice) = Option.none ∨
      ∀ nval, py_int? (py_strip user_choice) = some nval →
        ¬(0 ≤ nval - 1 ∧ nval - 1 < ((arb_candidates skills user_input).length : Int))) :
    select_skill skills user_input llm_decision user_choice = (.ok Option.none, []) := by
  rcases hc : arb_candidates skills user_input with _ | ⟨a, _ | ⟨b, rest⟩⟩
  · rw [hc] at hmulti
    simp at hmulti
  · rw [hc] at hmulti
    simp at hmulti
  · rw [hc] at hnomatch
    simp only [select_skill, hc, select_multi, hnomatch]
    rcases hbad with hb | hb
    · rw [hb]
    · rcases hpi : py_int? (py_strip user_choice) with _ | nval
      · rfl
      · have hnr := hb nval hpi
        rw [hc] at hnr
        simp only [if_neg hnr]

/-- Replacing every candidate's readiness value leaves the
multi-candidate path unchanged; shared by the proof of C10. -/
theorem select_multi_set_check (f : ArbSkill → Bool × String) (l : List ArbSkill)
    (user_input : String) (llm_decision : Except String String) (user_choice : String) :
    select_multi (l.map (fun s => { s with check_requirements := f s }))
        user_input llm_decision user_choice
      = select_multi l user_input llm_decision user_choice := by
  simp only [select_multi]
  rw [List.find?_map]
  have hcomp : ((fun s => py_in (py_lower s.name) (py_lower (arb_decision llm_decision))) ∘
      (fun s => { s with check_requirements := f s } : ArbSkill → ArbSkill)) =
      fun s => py_in (py_lower s.name) (py_lower (arb_decision llm_decision)) := rfl
  rw [hcomp]
  rcases hf : l.find?
      (fun s => py_in (py_lower s.name) (py_lower (arb_decision llm_decision))) with _ | s
  · rw [hf]
    simp only [Option.map_none']
    rcases hpi : py_int? (py_strip user_choice) with _ | nval
    · rfl
    · simp only [List.length_map]
      by_cases hidx : 0 ≤ nval - 1 ∧ nval - 1 < (l.length : Int)
      · rw [if_pos hidx, if_pos hidx]
        rcases hg : l.get? (nval - 1).toNat with _ | s
        · rw [List.getD, List.getD, List.get?_map, hg]
          rfl
        · rw [List.getD, List.getD, List.get?_map, hg]
          rfl
      · rw [if_neg hidx, if_neg hidx]
  · rw [hf]
    simp only [Option.map_some']
    rfl

/-- Claim C10: `select_skill` never consults `check_requirements`:
replacing every skill's readiness value arbitrarily changes nothing
about the result or the executed-skill trace, and a single not-ready
keyword-matched candidate still has its `run` invoked directly —
unlike the intent Dispatcher, which skips not-ready skills. -/
theorem select_skill_never_checks_readiness :
    (∀ (f : ArbSkill → Bool × String) (skills : List ArbSkill) (ui : String)
        (llm : Except String String) (ch : String),
      select_skill (skills.map (fun s => { s with check_requirements := f s })) ui llm ch
        = select_skill skills ui llm ch)
    ∧ (∀ (c : ArbSkill) (ui : String) (llm : Except String String) (ch : String),
      c.check_requirements.1 = false →
      (c.keywords.any (fun w => py_in (py_lower w) (arb_clean_input ui))) = true →
      (select_skill [c] ui llm ch).2 = [c.name]) := by
  constructor
  · intro f skills ui llm ch
    have hcand : arb_candidates
        (skills.map (fun s => { s with check_requirements := f s })) ui =
        (arb_candidates skills ui).map (fun s => { s with check_requirements := f s }) := by
      simp only [arb_candidates, List.filter_map]
      rfl
    simp only [select_skill, hcand]
    rcases hc : arb_candidates skills ui with _ | ⟨a, _ | ⟨b, rest⟩⟩
    · simp
    · simp only [List.map_cons, List.map_nil]
    · simp only [List.map_cons]
      exact select_multi_set_check f (a :: b :: rest) ui llm ch
  · intro c ui llm ch hnr hkw
    have hc : arb_candidates [c] ui = [c] := by
      simp [arb_candidates, hkw]
    simp only [select_skill, hc]
    rcases hr : c.run (arb_run_input ui) with e | out <;> simp [hr]

/-- A ready candidate skill with keyword "music". -/
def arb_music : ArbSkill :=
  { name := "MusicSkill", description := "streams audio"
    keywords := ["music"], run := fun _ => .ok (some "music output")
    check_requirements := (true, "") }

/-- A ready candidate skill with keyword "play". -/
def arb_camera : ArbSkill :=
  { name := "CameraSkill", description := "controls the camera"
    keywords := ["play"], run := fun _ => .ok (some "camera output")
    check_requirements := (true, "") }

/-- A keyword-matched candidate whose readiness check fails. -/
def arb_broken : ArbSkill :=
  { name := "BrokenSkill", description := "never ready"
    keywords := ["music"], run := fun _ => .ok (some "ran anyway")
    check_requirements := (false, "not ready") }

/-- Witness for C7: two keyword-matched candidates, failed classifier,
non-numeric interactive choice "abc" — nothing runs, result `None`. -/
theorem select_skill_invalid_choice_aborts_witness :
    2 ≤ (arb_candidates [arb_music, arb_camera] "play music").length ∧
    select_skill [arb_music, arb_camera] "play music" (.error "llm down") "abc"
      = (.ok Option.none, []) :=
  ⟨by decide,
   select_skill_invalid_choice_aborts [arb_music, arb_camera] "play music"
     (.error "llm down") "abc" (by decide) rfl (Or.inl rfl)⟩

/-- Witness for C10: a not-ready single candidate is still executed
(its name appears in the run trace). -/
theorem select_skill_never_checks_readiness_witness :
    arb_broken.check_requirements.1 = false ∧
    (select_skill [arb_broken] "play music" (.error "llm down") "1").2 = [arb_broken.name] :=
  ⟨rfl,
   select_skill_never_checks_readiness.2 arb_broken "play music" (.error "llm down") "1"
     rfl (by decide)⟩

end Crystal
